import Mathlib

/-!
Verification of the korangar client-side network protocol layer.

The Rust sources under verification are src/src/network/mod.rs (packet
catalog, dispatcher, session manager) and src/src/loaders/map/resource.rs
(versioned map resource decode).  Bytes are modelled as natural numbers
below 256, buffers as lists of bytes.  The forward-only byte cursor of the
repository (crate::loaders::ByteStream, not part of the provided sources)
is modelled from the spec as value/rest readers over a byte list: reading
past the end is a failure (Option.none), multi-byte integers are
little-endian, and read_string reads a fixed number of bytes and trims at
the first zero byte.
-/

/-- Modelled from the spec: little-endian interpretation of a byte list
(crate::loaders::ByteStream integer decoding; all multi-byte integers are
little-endian). -/
def leNat : List Nat → Nat
  | [] => 0
  | b :: rest => b + 256 * leNat rest

/-- Modelled from the spec: the little-endian encoding of a number into a
fixed number of bytes (the encoding direction of the byte cursor). -/
def leBytes : Nat → Nat → List Nat
  | 0, _ => []
  | w + 1, n => n % 256 :: leBytes w (n / 256)

theorem leBytes_length (w n : Nat) : (leBytes w n).length = w := by
  induction w generalizing n with
  | zero => rfl
  | succ w ih => simp [leBytes, ih]

theorem leNat_leBytes (w n : Nat) (h : n < 2 ^ (8 * w)) :
    leNat (leBytes w n) = n := by
  induction w generalizing n with
  | zero =>
    simp only [Nat.mul_zero, pow_zero, Nat.lt_one_iff] at h
    simp [leBytes, leNat, h]
  | succ w ih =>
    have hdiv : n / 256 < 2 ^ (8 * w) := by
      rw [Nat.div_lt_iff_lt_mul (by norm_num)]
      calc n < 2 ^ (8 * (w + 1)) := h
        _ = 2 ^ (8 * w) * 256 := by ring
    simp [leBytes, leNat, ih _ hdiv, Nat.mod_add_div]

/-- Modelled from the spec: read exactly n bytes from the front of the
buffer, failing when fewer remain (ByteStream::slice). -/
def readExact (n : Nat) (l : List Nat) : Option (List Nat × List Nat) :=
  if n ≤ l.length then some (l.take n, l.drop n) else none

theorem readExact_append (xs rest : List Nat) :
    readExact xs.length (xs ++ rest) = some (xs, rest) := by
  simp [readExact]

/-- Modelled from the spec: read one byte (ByteStream::next / u8 decode). -/
def readU8 (l : List Nat) : Option (Nat × List Nat) :=
  match l with
  | [] => none
  | b :: rest => some (b, rest)

/-- Modelled from the spec: read a little-endian u16. -/
def readU16 (l : List Nat) : Option (Nat × List Nat) :=
  (readExact 2 l).map (fun p => (leNat p.1, p.2))

/-- Modelled from the spec: read a little-endian u32. -/
def readU32 (l : List Nat) : Option (Nat × List Nat) :=
  (readExact 4 l).map (fun p => (leNat p.1, p.2))

/-- Modelled from the spec: read a little-endian u64. -/
def readU64 (l : List Nat) : Option (Nat × List Nat) :=
  (readExact 8 l).map (fun p => (leNat p.1, p.2))

theorem readU16_leBytes (v : Nat) (rest : List Nat) (h : v < 2 ^ 16) :
    readU16 (leBytes 2 v ++ rest) = some (v, rest) := by
  have h1 : readExact 2 (leBytes 2 v ++ rest) = some (leBytes 2 v, rest) := by
    have h2 := readExact_append (leBytes 2 v) rest
    rwa [leBytes_length] at h2
  simp [readU16, h1, leNat_leBytes 2 v (by simpa using h)]

theorem readU32_leBytes (v : Nat) (rest : List Nat) (h : v < 2 ^ 32) :
    readU32 (leBytes 4 v ++ rest) = some (v, rest) := by
  have h1 : readExact 4 (leBytes 4 v ++ rest) = some (leBytes 4 v, rest) := by
    have h2 := readExact_append (leBytes 4 v) rest
    rwa [leBytes_length] at h2
  simp [readU32, h1, leNat_leBytes 4 v (by simpa using h)]

/-- Modelled from the spec: read_string reads a fixed number of bytes and
trims the value at the first zero byte; this is the trimming step. -/
def trimNul (l : List Nat) : List Nat :=
  l.takeWhile (fun b => b ≠ 0)

/-- WorldPosition from src/src/network/mod.rs: a pair of coordinates
bit-packed into 3 bytes on the wire. -/
structure WorldPosition where
  x : Nat
  y : Nat
deriving DecidableEq, Repr

/-- WorldPosition::to_bytes from src/src/network/mod.rs.  The Rust casts
to u8 are modelled as reduction modulo 256. -/
def WorldPosition.toBytes (p : WorldPosition) : List Nat :=
  [(p.x >>> 2) % 256,
   ((p.x <<< 6) % 256) ||| ((p.y >>> 4) &&& 63),
   (p.y <<< 4) % 256]

/-- WorldPosition::from_bytes from src/src/network/mod.rs.  The source
performs the shifts and ors in u8 arithmetic, so the left shifts drop any
bits above bit 7; this is modelled by the explicit reductions modulo 256.
Returns the decoded position and the unread remainder of the buffer. -/
def WorldPosition.fromBytes (l : List Nat) : Option (WorldPosition × List Nat) :=
  match readExact 3 l with
  | none => none
  | some (coords, rest) =>
    match coords with
    | [c0, c1, c2] =>
      some (⟨(c1 >>> 6) ||| ((c0 <<< 2) % 256),
             (c2 >>> 4) ||| (((c1 &&& 63) <<< 4) % 256)⟩, rest)
    | _ => none

/-- C1: the claim says decoding the 3-byte encoding of any x, y in
[0, 1023] yields back exactly x and y.  The code violates this: at
x = 256, y = 0 the encoder packs the coordinates correctly, but the
decoder computes x in u8 arithmetic, truncating the two high bits, and
returns x = 0.  This theorem evaluates the embedded code at that failing
input. -/
theorem worldPosition_roundtrip_fails_at_x256 :
    WorldPosition.fromBytes (WorldPosition.toBytes ⟨256, 0⟩) =
      some (⟨0, 0⟩, []) ∧ (⟨0, 0⟩ : WorldPosition) ≠ ⟨256, 0⟩ := by
  constructor
  · rfl
  · decide

/-- ItemIndex::from_bytes from src/src/network/mod.rs: reads a u16 and
subtracts 2 (u16 arithmetic, modelled with the two's-complement wrap of
the release build; the claim only concerns wire values of at least 2,
where no wrap occurs). -/
def ItemIndex.fromBytes (l : List Nat) : Option (Nat × List Nat) :=
  (readU16 l).map (fun p => ((p.1 + 65534) % 65536, p.2))

/-- ItemIndex::to_bytes from src/src/network/mod.rs: adds 2 back and
encodes as a u16. -/
def ItemIndex.toBytes (i : Nat) : List Nat :=
  leBytes 2 ((i + 2) % 65536)

/-- C6: for every u16 wire value v at least 2, decoding the 2-byte
encoding of v yields the logical value v - 2, and re-encoding that
logical value yields back exactly the encoding of v. -/
theorem itemIndex_wire_offset (v : Nat) (h2 : 2 ≤ v) (hlt : v < 65536) :
    ItemIndex.fromBytes (leBytes 2 v) = some (v - 2, []) ∧
      ItemIndex.toBytes (v - 2) = leBytes 2 v := by
  have hread : readU16 (leBytes 2 v ++ []) = some (v, []) :=
    readU16_leBytes v [] (by simpa using hlt)
  simp only [List.append_nil] at hread
  constructor
  · simp [ItemIndex.fromBytes, hread]
    omega
  · have : (v - 2 + 2) % 65536 = v := by omega
    simp [ItemIndex.toBytes, this]

/-- C6 witness: the theorem applied at the concrete wire value 7. -/
theorem itemIndex_wire_offset_witness :
    ItemIndex.fromBytes (leBytes 2 7) = some (5, []) ∧
      ItemIndex.toBytes 5 = leBytes 2 7 :=
  itemIndex_wire_offset 7 (by decide) (by decide)

/-- StatusType from src/src/network/mod.rs: a tagged union of status
values; the wire form is a u16 code followed by a code-determined
payload. -/
inductive StatusType where
  | Weight (a : Nat)
  | MaximumWeight (a : Nat)
  | MovementSpeed (a : Nat)
  | BaseLevel (a : Nat)
  | JobLevel (a : Nat)
  | Karma (a : Nat)
  | Manner (a : Nat)
  | StatusPoint (a : Nat)
  | SkillPoint (a : Nat)
  | Hit (a : Nat)
  | Flee1 (a : Nat)
  | Flee2 (a : Nat)
  | MaximumHealthPoints (a : Nat)
  | MaximumSpellPoints (a : Nat)
  | HealthPoints (a : Nat)
  | SpellPoints (a : Nat)
  | AttackSpeed (a : Nat)
  | Attack1 (a : Nat)
  | Defense1 (a : Nat)
  | MagicDefense1 (a : Nat)
  | Attack2 (a : Nat)
  | Defense2 (a : Nat)
  | MagicDefense2 (a : Nat)
  | Critical (a : Nat)
  | MagicAttack1 (a : Nat)
  | MagicAttack2 (a : Nat)
  | Zeny (a : Nat)
  | BaseExperience (a : Nat)
  | JobExperience (a : Nat)
  | NextBaseExperience (a : Nat)
  | NextJobExperience (a : Nat)
  | SpUstr (a : Nat)
  | SpUagi (a : Nat)
  | SpUvit (a : Nat)
  | SpUint (a : Nat)
  | SpUdex (a : Nat)
  | SpUluk (a : Nat)
  | Strength (a b : Nat)
  | Agility (a b : Nat)
  | Vitality (a b : Nat)
  | Intelligence (a b : Nat)
  | Dexterity (a b : Nat)
  | Luck (a b : Nat)
  | CartInfo (a b c : Nat)
  | ActivityPoints (a : Nat)
  | TraitPoint (a : Nat)
  | MaximumActivityPoints (a : Nat)
  | Power (a b : Nat)
  | Stamina (a b : Nat)
  | Wisdom (a b : Nat)
  | Spell (a b : Nat)
  | Concentration (a b : Nat)
  | Creativity (a b : Nat)
  | SpUpow (a : Nat)
  | SpUsta (a : Nat)
  | SpUwis (a : Nat)
  | SpUspl (a : Nat)
  | SpUcon (a : Nat)
  | SpUcrt (a : Nat)
  | PhysicalAttack (a : Nat)
  | SpellMagicAttack (a : Nat)
  | Resistance (a : Nat)
  | MagicResistance (a : Nat)
  | HealingPlus (a : Nat)
  | CriticalDamageRate (a : Nat)

/-- The per-code payload decode of StatusType::from_bytes
(src/src/network/mod.rs): the match over the u16 wire code.  An
unassigned code panics in the source, modelled as Option.none. -/
def StatusType.decodePayload (code : Nat) (d : List Nat) : Option StatusType :=
  match code with
  | 0 => (readU32 d).map (fun p => .MovementSpeed p.1)
  | 1 => (readU64 d).map (fun p => .BaseExperience p.1)
  | 2 => (readU64 d).map (fun p => .JobExperience p.1)
  | 3 => (readU32 d).map (fun p => .Karma p.1)
  | 4 => (readU32 d).map (fun p => .Manner p.1)
  | 5 => (readU32 d).map (fun p => .HealthPoints p.1)
  | 6 => (readU32 d).map (fun p => .MaximumHealthPoints p.1)
  | 7 => (readU32 d).map (fun p => .SpellPoints p.1)
  | 8 => (readU32 d).map (fun p => .MaximumSpellPoints p.1)
  | 9 => (readU32 d).map (fun p => .StatusPoint p.1)
  | 11 => (readU32 d).map (fun p => .BaseLevel p.1)
  | 12 => (readU32 d).map (fun p => .SkillPoint p.1)
  | 13 => (readU32 d).bind (fun p => (readU32 p.2).map (fun q => .Strength p.1 q.1))
  | 14 => (readU32 d).bind (fun p => (readU32 p.2).map (fun q => .Agility p.1 q.1))
  | 15 => (readU32 d).bind (fun p => (readU32 p.2).map (fun q => .Vitality p.1 q.1))
  | 16 => (readU32 d).bind (fun p => (readU32 p.2).map (fun q => .Intelligence p.1 q.1))
  | 17 => (readU32 d).bind (fun p => (readU32 p.2).map (fun q => .Dexterity p.1 q.1))
  | 18 => (readU32 d).bind (fun p => (readU32 p.2).map (fun q => .Luck p.1 q.1))
  | 20 => (readU32 d).map (fun p => .Zeny p.1)
  | 22 => (readU64 d).map (fun p => .NextBaseExperience p.1)
  | 23 => (readU64 d).map (fun p => .NextJobExperience p.1)
  | 24 => (readU32 d).map (fun p => .Weight p.1)
  | 25 => (readU32 d).map (fun p => .MaximumWeight p.1)
  | 32 => (readU8 d).map (fun p => .SpUstr p.1)
  | 33 => (readU8 d).map (fun p => .SpUagi p.1)
  | 34 => (readU8 d).map (fun p => .SpUvit p.1)
  | 35 => (readU8 d).map (fun p => .SpUint p.1)
  | 36 => (readU8 d).map (fun p => .SpUdex p.1)
  | 37 => (readU8 d).map (fun p => .SpUluk p.1)
  | 41 => (readU32 d).map (fun p => .Attack1 p.1)
  | 42 => (readU32 d).map (fun p => .Attack2 p.1)
  | 43 => (readU32 d).map (fun p => .MagicAttack1 p.1)
  | 44 => (readU32 d).map (fun p => .MagicAttack2 p.1)
  | 45 => (readU32 d).map (fun p => .Defense1 p.1)
  | 46 => (readU32 d).map (fun p => .Defense2 p.1)
  | 47 => (readU32 d).map (fun p => .MagicDefense1 p.1)
  | 48 => (readU32 d).map (fun p => .MagicDefense2 p.1)
  | 49 => (readU32 d).map (fun p => .Hit p.1)
  | 50 => (readU32 d).map (fun p => .Flee1 p.1)
  | 51 => (readU32 d).map (fun p => .Flee2 p.1)
  | 52 => (readU32 d).map (fun p => .Critical p.1)
  | 53 => (readU32 d).map (fun p => .AttackSpeed p.1)
  | 55 => (readU32 d).map (fun p => .JobLevel p.1)
  | 99 => (readU16 d).bind (fun p => (readU32 p.2).bind (fun q =>
      (readU32 q.2).map (fun r => .CartInfo p.1 q.1 r.1)))
  | 219 => (readU32 d).bind (fun p => (readU32 p.2).map (fun q => .Power p.1 q.1))
  | 220 => (readU32 d).bind (fun p => (readU32 p.2).map (fun q => .Stamina p.1 q.1))
  | 221 => (readU32 d).bind (fun p => (readU32 p.2).map (fun q => .Wisdom p.1 q.1))
  | 222 => (readU32 d).bind (fun p => (readU32 p.2).map (fun q => .Spell p.1 q.1))
  | 223 => (readU32 d).bind (fun p => (readU32 p.2).map (fun q => .Concentration p.1 q.1))
  | 224 => (readU32 d).bind (fun p => (readU32 p.2).map (fun q => .Creativity p.1 q.1))
  | 225 => (readU32 d).map (fun p => .PhysicalAttack p.1)
  | 226 => (readU32 d).map (fun p => .SpellMagicAttack p.1)
  | 227 => (readU32 d).map (fun p => .Resistance p.1)
  | 228 => (readU32 d).map (fun p => .MagicResistance p.1)
  | 229 => (readU32 d).map (fun p => .HealingPlus p.1)
  | 230 => (readU32 d).map (fun p => .CriticalDamageRate p.1)
  | 231 => (readU32 d).map (fun p => .TraitPoint p.1)
  | 232 => (readU32 d).map (fun p => .ActivityPoints p.1)
  | 233 => (readU32 d).map (fun p => .MaximumActivityPoints p.1)
  | 247 => (readU8 d).map (fun p => .SpUpow p.1)
  | 248 => (readU8 d).map (fun p => .SpUsta p.1)
  | 249 => (readU8 d).map (fun p => .SpUwis p.1)
  | 250 => (readU8 d).map (fun p => .SpUspl p.1)
  | 251 => (readU8 d).map (fun p => .SpUcon p.1)
  | 252 => (readU8 d).map (fun p => .SpUcrt p.1)
  | _ => none

/-- StatusType::from_bytes from src/src/network/mod.rs: slices
length_hint bytes off the stream (length_hint.unwrap() panics when the
hint is absent, modelled as Option.none), then reads the u16 code from
the sliced data and decodes the code-determined payload inside it. -/
def StatusType.fromBytes (l : List Nat) (lengthHint : Option Nat) :
    Option (StatusType × List Nat) :=
  match lengthHint with
  | none => none
  | some hint =>
    match readExact hint l with
    | none => none
    | some (data, rest) =>
      match readU16 data with
      | none => none
      | some (code, payload) =>
        match StatusType.decodePayload code payload with
        | none => none
        | some st => some (st, rest)

theorem decodePayload_code11 (d : List Nat) :
    StatusType.decodePayload 11 d = (readU32 d).map (fun p => .BaseLevel p.1) :=
  rfl

theorem decodePayload_code9999 (d : List Nat) :
    StatusType.decodePayload 9999 d = none :=
  rfl

/-- C5: decoding wire code 11 with a 4-byte u32 payload n (under the
6-byte length hint used by the update-status packets) yields
BaseLevel n, and decoding the unassigned code 9999 fails for any
payload. -/
theorem statusType_code_table (n : Nat) (h : n < 2 ^ 32) :
    StatusType.fromBytes (leBytes 2 11 ++ leBytes 4 n) (some 6) =
      some (.BaseLevel n, []) ∧
    ∀ payload : List Nat,
      StatusType.fromBytes (leBytes 2 9999 ++ payload)
        (some (2 + payload.length)) = none := by
  constructor
  · have hslice : readExact 6 (leBytes 2 11 ++ leBytes 4 n) =
        some (leBytes 2 11 ++ leBytes 4 n, []) := by
      have h2 := readExact_append (leBytes 2 11 ++ leBytes 4 n) []
      simp [leBytes_length] at h2
      simpa using h2
    have hcode : readU16 (leBytes 2 11 ++ leBytes 4 n) =
        some (11, leBytes 4 n) := readU16_leBytes 11 (leBytes 4 n) (by norm_num)
    have hpayload : readU32 (leBytes 4 n) = some (n, []) := by
      have h3 := readU32_leBytes n [] h
      simpa using h3
    simp [StatusType.fromBytes, hslice, hcode, decodePayload_code11, hpayload]
  · intro payload
    have hslice : readExact (2 + payload.length) (leBytes 2 9999 ++ payload) =
        some (leBytes 2 9999 ++ payload, []) := by
      have h2 := readExact_append (leBytes 2 9999 ++ payload) []
      simp [leBytes_length] at h2
      simpa [Nat.add_comm] using h2
    have hcode : readU16 (leBytes 2 9999 ++ payload) =
        some (9999, payload) := readU16_leBytes 9999 payload (by norm_num)
    simp [StatusType.fromBytes, hslice, hcode, decodePayload_code9999]

/-- C5 witness: the theorem applied at the concrete payload value 7. -/
theorem statusType_code_table_witness :
    StatusType.fromBytes (leBytes 2 11 ++ leBytes 4 7) (some 6) =
      some (.BaseLevel 7, []) ∧
    StatusType.fromBytes (leBytes 2 9999 ++ [1, 2, 3, 4])
      (some (2 + [1, 2, 3, 4].length)) = none := by
  have h := statusType_code_table 7 (by norm_num)
  exact ⟨h.1, h.2 [1, 2, 3, 4]⟩

/-- One second in nanoseconds, the resolution of std::time::Duration. -/
def nsPerSecond : Nat := 1000000000

/-- NetworkTimer from src/src/network/mod.rs: a fixed period and an
accumulator, both std::time::Duration values modelled in integer
nanoseconds (the resolution of Duration; the f64-seconds-to-Duration
conversion of the caller is outside the model). -/
structure NetworkTimer where
  period : Nat
  accumulator : Nat
deriving DecidableEq, Repr

/-- NetworkTimer::update from src/src/network/mod.rs: adds the elapsed
time to the accumulator; when the accumulator strictly exceeds the
period it subtracts exactly one period and reports a trigger. -/
def NetworkTimer.update (t : NetworkTimer) (elapsed : Nat) : Bool × NetworkTimer :=
  let acc := t.accumulator + elapsed
  let reset := t.period < acc
  (reset, ⟨t.period, if reset then acc - t.period else acc⟩)

/-- A sequence of NetworkTimer::update calls, as performed once per tick
by NetworkingSystem::keep_alive; returns how many calls reported a
trigger together with the final timer state. -/
def runTimer (t : NetworkTimer) : List Nat → Nat × NetworkTimer
  | [] => (0, t)
  | d :: rest =>
    let step := t.update d
    let res := runTimer step.2 rest
    ((if step.1 then 1 else 0) + res.1, res.2)

theorem runTimer_invariant (ds : List Nat) (t : NetworkTimer)
    (hacc : t.accumulator ≤ t.period) (hds : ∀ d ∈ ds, d ≤ t.period) :
    (runTimer t ds).2.period = t.period ∧
    (runTimer t ds).2.accumulator + t.period * (runTimer t ds).1 =
      t.accumulator + ds.sum ∧
    (runTimer t ds).2.accumulator ≤ t.period := by
  induction ds generalizing t with
  | nil => exact ⟨rfl, by simp [runTimer], hacc⟩
  | cons d rest ih =>
    have hd : d ≤ t.period := hds d (by simp)
    have hrest : ∀ x ∈ rest, x ≤ t.period := fun x hx => hds x (by simp [hx])
    by_cases hfire : t.period < t.accumulator + d
    · have hstep : t.update d = (true, ⟨t.period, t.accumulator + d - t.period⟩) := by
        simp [NetworkTimer.update, hfire]
      have ih2 := ih ⟨t.period, t.accumulator + d - t.period⟩ (by simp; omega)
        (by simpa using hrest)
      simp only [runTimer, hstep] at *
      refine ⟨ih2.1, ?_, ih2.2.2⟩
      have heq := ih2.2.1
      simp only [List.sum_cons]
      simp at heq ⊢
      rw [Nat.mul_add]
      omega
    · have hstep : t.update d = (false, ⟨t.period, t.accumulator + d⟩) := by
        simp [NetworkTimer.update, hfire]
      have ih2 := ih ⟨t.period, t.accumulator + d⟩ (by simp; omega)
        (by simpa using hrest)
      simp only [runTimer, hstep] at *
      refine ⟨ih2.1, ?_, ih2.2.2⟩
      have heq := ih2.2.1
      simp only [List.sum_cons]
      simp at heq ⊢
      omega

/-- C4 counterexample: a sequence consisting of one update call of 25
seconds sums to 25 seconds, yet it produces one trigger (not two) and
leaves the accumulator at 15 seconds (not 5): as claimed in C10, a
single call can consume at most one period. -/
theorem keepalive_25s_single_call_counterexample :
    List.sum [25 * nsPerSecond] = 25 * nsPerSecond ∧
    runTimer ⟨10 * nsPerSecond, 0⟩ [25 * nsPerSecond] =
      (1, ⟨10 * nsPerSecond, 15 * nsPerSecond⟩) ∧
    ¬(runTimer ⟨10 * nsPerSecond, 0⟩ [25 * nsPerSecond] =
      (2, ⟨10 * nsPerSecond, 5 * nsPerSecond⟩)) := by
  refine ⟨by simp, ?_, ?_⟩ <;> simp [runTimer, NetworkTimer.update, nsPerSecond]

/-- C4 (amended): for a timer of period 10 s starting empty, any
sequence of update calls, each with elapsed time at most the period,
whose elapsed times sum to 25 s produces exactly two triggers and
leaves the accumulator at exactly 5 s; each trigger subtracts exactly
one period rather than resetting the accumulator. -/
theorem keepalive_timer_25s (ds : List Nat)
    (hds : ∀ d ∈ ds, d ≤ 10 * nsPerSecond)
    (hsum : ds.sum = 25 * nsPerSecond) :
    (runTimer ⟨10 * nsPerSecond, 0⟩ ds).1 = 2 ∧
    (runTimer ⟨10 * nsPerSecond, 0⟩ ds).2.accumulator = 5 * nsPerSecond := by
  have h := runTimer_invariant ds ⟨10 * nsPerSecond, 0⟩ (by simp) (by simpa using hds)
  simp only [hsum] at h
  obtain ⟨-, heq, hle⟩ := h
  simp [nsPerSecond] at heq hle ⊢
  omega

/-- C4 witness: the amended theorem applied to the concrete call
sequence 10 s, 10 s, 5 s. -/
theorem keepalive_timer_25s_witness :
    (runTimer ⟨10 * nsPerSecond, 0⟩
      [10 * nsPerSecond, 10 * nsPerSecond, 5 * nsPerSecond]).1 = 2 ∧
    (runTimer ⟨10 * nsPerSecond, 0⟩
      [10 * nsPerSecond, 10 * nsPerSecond, 5 * nsPerSecond]).2.accumulator =
      5 * nsPerSecond :=
  keepalive_timer_25s [10 * nsPerSecond, 10 * nsPerSecond, 5 * nsPerSecond]
    (by intro d hd; simp [nsPerSecond] at hd ⊢; rcases hd with h | h | h <;> omega)
    (by simp [nsPerSecond])

/-- C10: a single NetworkTimer::update call triggers at most once no
matter how large the elapsed argument is: it returns true exactly when
the accumulated time strictly exceeds the period (equality does not
trigger), it subtracts exactly one period on a trigger and nothing
otherwise, and a single 25 s call on a 10 s timer triggers once and
leaves the accumulator at 15 s. -/
theorem networkTimer_single_update_bound (t : NetworkTimer) (e : Nat) :
    ((t.update e).1 = true ↔ t.period < t.accumulator + e) ∧
    t.accumulator + e - t.period ≤ (t.update e).2.accumulator ∧
    ((t.update e).2.accumulator +
      (if (t.update e).1 then t.period else 0) = t.accumulator + e) ∧
    (NetworkTimer.update ⟨10 * nsPerSecond, 0⟩ (25 * nsPerSecond) =
      (true, ⟨10 * nsPerSecond, 15 * nsPerSecond⟩)) ∧
    ((NetworkTimer.update ⟨10 * nsPerSecond, 0⟩ (10 * nsPerSecond)).1 = false) := by
  refine ⟨?_, ?_, ?_, ?_, ?_⟩
  · simp [NetworkTimer.update]
  · by_cases h : t.period < t.accumulator + e <;> simp [NetworkTimer.update, h] <;> omega
  · by_cases h : t.period < t.accumulator + e <;> simp [NetworkTimer.update, h] <;> omega
  · simp [NetworkTimer.update, nsPerSecond]
  · simp [NetworkTimer.update, nsPerSecond]

/-- The application events produced by NetworkingSystem::network_events
(src/src/network/mod.rs) for the modelled packet subset.  For chat
messages the event carries the decoded message bytes; the wall-clock
timestamp prefix and the display color added by ChatMessage::new are
outside the model (real time). -/
inductive MEvent where
  | updateClientTick (tick : Nat)
  | removeEntity (id : Nat)
  | chatMessage (text : List Nat)
  | updateStatus (status : StatusType)
  | setPlayerPosition (x y : Nat)

/-- UnknownPacket from src/src/network/mod.rs: the opaque diagnostic
record capturing the remaining bytes of a buffer whose next frame could
not be matched to any known packet. -/
structure UnknownPacket where
  bytes : List Nat
deriving DecidableEq, Repr

/-- Body of BroadcastMessagePacket (header 0x009a): a u16 packet_length
followed by a string with length hint packet_length - 2 (u16 arithmetic
modelled with the two's-complement wrap of the release build).  Produces
one ChatMessage event. -/
def decodeBroadcastMessageBody (body : List Nat) : Option (List MEvent × Nat) :=
  (readU16 body).bind (fun p =>
    (readExact ((p.1 + 65536 - 2) % 65536) p.2).map (fun q =>
      ([.chatMessage (trimNul q.1)], 2 + (p.1 + 65536 - 2) % 65536)))

/-- Body of DisplayEmotionPacket (header 0x00c0): entity id u32 and
emotion u8.  Produces no events. -/
def decodeDisplayEmotionBody (body : List Nat) : Option (List MEvent × Nat) :=
  (readU32 body).bind (fun p =>
    (readU8 p.2).map (fun _ => (([] : List MEvent), 5)))

/-- Body of EntityDisappearedPacket (header 0x0080): entity id u32 and a
DissapearanceReason byte.  The reason enum has the sequential codes 0-4;
an out-of-range code is a hard decode failure (enum decode modelled from
the spec).  Produces one RemoveEntity event. -/
def decodeEntityDisappearedBody (body : List Nat) : Option (List MEvent × Nat) :=
  (readU32 body).bind (fun p =>
    (readU8 p.2).bind (fun q =>
      if q.1 < 5 then some ([.removeEntity p.1], 5) else none))

/-- Body of UpdateStatusPacket (header 0x00b0): a StatusType decoded
under the length hint 6 declared on the packet.  Produces one
UpdateStatus event. -/
def decodeUpdateStatusBody (body : List Nat) : Option (List MEvent × Nat) :=
  (StatusType.fromBytes body (some 6)).map (fun p => ([.updateStatus p.1], 6))

/-- Body of ServerTickPacket (header 0x007f): the client tick u32.
Produces one UpdateClientTick event. -/
def decodeServerTickBody (body : List Nat) : Option (List MEvent × Nat) :=
  (readU32 body).map (fun p => ([.updateClientTick p.1], 4))

/-- Body of MapServerLoginSuccessPacket (header 0x02eb): client tick
u32, a 3-byte WorldPosition, two ignored bytes and a u16 font.  This
packet fans out into two events: UpdateClientTick and
SetPlayerPosition. -/
def decodeMapLoginSuccessBody (body : List Nat) : Option (List MEvent × Nat) :=
  (readU32 body).bind (fun p =>
    (WorldPosition.fromBytes p.2).bind (fun q =>
      (readExact 2 q.2).bind (fun r =>
        (readU16 r.2).map (fun _ =>
          ([.updateClientTick p.1, .setPlayerPosition q.1.x q.1.y], 11)))))

/-- The headers of the modelled packet subset of the dispatcher
(NetworkingSystem::network_events tries roughly seventy packet types;
this embedding models a representative subset spanning fixed-layout and
length-prefixed packets and zero-, one- and two-event fan-out). -/
def knownHeaders : List Nat :=
  [0x009a, 0x00c0, 0x0080, 0x00b0, 0x007f, 0x02eb]

/-- One trial round of the dispatcher loop: peek the u16 header at the
cursor and, when it belongs to a known packet type, decode that packet
and convert it to its events, reporting the number of body bytes
consumed.  Failure (unknown header, fewer than two remaining bytes, or
a matching header whose body cannot be decoded from the remaining
bytes) models every try_from_bytes call of the source failing, with the
cursor restored (try_from_bytes is generated by the Packet derive of
the repository, which is not part of the provided sources; its
header-check-then-decode behaviour is modelled from the spec). -/
def decodeFrame : List Nat → Option (List MEvent × Nat)
  | b0 :: b1 :: body =>
    let header := b0 + 256 * b1
    if header = 0x009a then decodeBroadcastMessageBody body
    else if header = 0x00c0 then decodeDisplayEmotionBody body
    else if header = 0x0080 then decodeEntityDisappearedBody body
    else if header = 0x00b0 then decodeUpdateStatusBody body
    else if header = 0x007f then decodeServerTickBody body
    else if header = 0x02eb then decodeMapLoginSuccessBody body
    else none
  | _ => none

/-- The inner loop of NetworkingSystem::network_events over one read
buffer: while the cursor is not at the end, try to decode the next
frame; on success convert it to events and advance past the frame; on
failure break, capturing the entire remaining buffer as an UnknownPacket
diagnostic record (the debug-build history capture) and discarding it.
Returns the accumulated events and the capture (none when the buffer
was consumed to its end). -/
def dispatchBuffer : List Nat → List MEvent × Option UnknownPacket
  | [] => ([], none)
  | b :: bs =>
    match decodeFrame (b :: bs) with
    | some (evs, consumed) =>
      let res := dispatchBuffer (bs.drop (1 + consumed))
      (evs ++ res.1, res.2)
    | none => ([], some ⟨b :: bs⟩)
termination_by l => l.length
decreasing_by simp; omega

/-- NetworkingSystem::try_get_data_from_map_server
(src/src/network/mod.rs) over a queue of pending socket reads: a read
of exactly 1400 bytes is concatenated with the following read(s) before
being decoded; any other read is returned as is.  The source unwraps the
recursive read, so a trailing 1400-byte read with nothing following it
panics, modelled as none. -/
def takeRead : List (List Nat) → Option (List Nat × List (List Nat))
  | [] => none
  | c :: rest =>
    if c.length = 1400 then
      match takeRead rest with
      | some p => some (c ++ p.1, p.2)
      | none => none
    else some (c, rest)

theorem takeRead_rest_length_lt (l : List (List Nat)) :
    ∀ d rest, takeRead l = some (d, rest) → rest.length < l.length := by
  induction l with
  | nil => intro d rest h; simp [takeRead] at h
  | cons c cs ih =>
    intro d rest h
    by_cases hc : c.length = 1400
    · rw [takeRead, if_pos hc] at h
      cases htr : takeRead cs with
      | none => rw [htr] at h; exact absurd h (by simp)
      | some p =>
        rw [htr] at h
        have hrest : p.2 = rest := congrArg Prod.snd (Option.some.inj h)
        have h2 := ih p.1 p.2 (by rw [htr])
        rw [← hrest]
        simp only [List.length_cons]
        omega
    · rw [takeRead, if_neg hc] at h
      have h2 : cs = rest := congrArg Prod.snd (Option.some.inj h)
      rw [← h2]
      simp

/-- The outer loop of NetworkingSystem::network_events: repeatedly take
the next (possibly 1400-byte-recombined) read buffer from the map
server and dispatch it, concatenating the events of all buffers in
order.  Note that the leftover bytes of one buffer are not carried into
the next buffer: the inner loop drops them. -/
def networkEvents (reads : List (List Nat)) : List MEvent :=
  match h : takeRead reads with
  | none => []
  | some p => (dispatchBuffer p.1).1 ++ networkEvents p.2
termination_by reads.length
decreasing_by exact takeRead_rest_length_lt _ _ _ h

/-- A frame of one of the modelled packet types, as produced by a
server: the constructor arguments are the packet fields. -/
inductive MFrame where
  | serverTick (tick : Nat)
  | entityDisappeared (id reason : Nat)
  | displayEmotion (id emotion : Nat)
  | updateStatusBaseLevel (level : Nat)
  | broadcastMessage (len : Nat) (message : List Nat)
  | mapLoginSuccess (tick : Nat) (position : WorldPosition)
      (ignored0 ignored1 font : Nat)

/-- Well-formedness of a modelled frame: the fields fit their wire
widths, a length-prefixed message matches its length field, and a
packed position is one that WorldPosition::from_bytes decodes back to
itself (because of the u8 truncation described at C1 this restricts the
coordinates; the decode equation is the exact condition). -/
def MFrame.wf : MFrame → Prop
  | .serverTick t => t < 2 ^ 32
  | .entityDisappeared id r => id < 2 ^ 32 ∧ r < 5
  | .displayEmotion id e => id < 2 ^ 32 ∧ e < 256
  | .updateStatusBaseLevel n => n < 2 ^ 32
  | .broadcastMessage len msg => 2 ≤ len ∧ len < 2 ^ 16 ∧ msg.length = len - 2
  | .mapLoginSuccess t pos i0 i1 f =>
      t < 2 ^ 32 ∧
      WorldPosition.fromBytes (WorldPosition.toBytes pos) = some (pos, []) ∧
      i0 < 256 ∧ i1 < 256 ∧ f < 2 ^ 16

/-- The wire bytes of a modelled frame: the little-endian u16 header
followed by the body fields in declaration order. -/
def MFrame.encode : MFrame → List Nat
  | .serverTick t => 0x7f :: 0x00 :: leBytes 4 t
  | .entityDisappeared id r => 0x80 :: 0x00 :: (leBytes 4 id ++ [r])
  | .displayEmotion id e => 0xc0 :: 0x00 :: (leBytes 4 id ++ [e])
  | .updateStatusBaseLevel n => 0xb0 :: 0x00 :: (leBytes 2 11 ++ leBytes 4 n)
  | .broadcastMessage len msg => 0x9a :: 0x00 :: (leBytes 2 len ++ msg)
  | .mapLoginSuccess t pos i0 i1 f =>
      0xeb :: 0x02 :: (leBytes 4 t ++ pos.toBytes ++ [i0, i1] ++ leBytes 2 f)

/-- The application events the dispatcher produces for a modelled
frame. -/
def MFrame.events : MFrame → List MEvent
  | .serverTick t => [.updateClientTick t]
  | .entityDisappeared id _ => [.removeEntity id]
  | .displayEmotion _ _ => []
  | .updateStatusBaseLevel n => [.updateStatus (.BaseLevel n)]
  | .broadcastMessage _ msg => [.chatMessage (trimNul msg)]
  | .mapLoginSuccess t pos _ _ _ =>
      [.updateClientTick t, .setPlayerPosition pos.x pos.y]

theorem worldPosition_fromBytes_extend (c : List Nat) (p : WorldPosition)
    (h : WorldPosition.fromBytes c = some (p, [])) (rest : List Nat) :
    WorldPosition.fromBytes (c ++ rest) = some (p, rest) := by
  match c with
  | [] => simp [WorldPosition.fromBytes, readExact] at h
  | [a] => simp [WorldPosition.fromBytes, readExact] at h
  | [a, b] => simp [WorldPosition.fromBytes, readExact] at h
  | a :: b :: d :: tail =>
    have hre : readExact 3 (a :: b :: d :: tail) = some ([a, b, d], tail) := by
      have h0 := readExact_append [a, b, d] tail
      simpa using h0
    have hval : WorldPosition.fromBytes (a :: b :: d :: tail) =
        some (⟨(b >>> 6) ||| ((a <<< 2) % 256),
               (d >>> 4) ||| (((b &&& 63) <<< 4) % 256)⟩, tail) := by
      simp [WorldPosition.fromBytes, hre]
    rw [hval] at h
    have hp := Option.some.inj h
    have htail : tail = [] := congrArg Prod.snd hp
    have hpos : (⟨(b >>> 6) ||| ((a <<< 2) % 256),
        (d >>> 4) ||| (((b &&& 63) <<< 4) % 256)⟩ : WorldPosition) = p :=
      congrArg Prod.fst hp
    subst htail
    have hre2 : readExact 3 (a :: b :: d :: rest) = some ([a, b, d], rest) := by
      have h0 := readExact_append [a, b, d] rest
      simpa using h0
    simp [WorldPosition.fromBytes, hre2, hpos]

/-- The central frame-decode lemma: a well-formed modelled frame placed
at the cursor decodes to exactly its events, consuming exactly its body
(the whole frame minus the 2-byte header). -/
theorem decodeFrame_encode (f : MFrame) (hwf : f.wf) (rest : List Nat) :
    decodeFrame (f.encode ++ rest) = some (f.events, f.encode.length - 2) := by
  cases f with
  | serverTick t =>
    have hread := readU32_leBytes t rest hwf
    simp [MFrame.encode, MFrame.events, decodeFrame, decodeServerTickBody,
      hread, leBytes_length]
  | entityDisappeared id r =>
    obtain ⟨h1, h2⟩ := hwf
    have hread := readU32_leBytes id (r :: rest) h1
    simp [MFrame.encode, MFrame.events, decodeFrame, decodeEntityDisappearedBody,
      hread, readU8, h2, leBytes_length]
  | displayEmotion id e =>
    obtain ⟨h1, h2⟩ := hwf
    have hread := readU32_leBytes id (e :: rest) h1
    simp [MFrame.encode, MFrame.events, decodeFrame, decodeDisplayEmotionBody,
      hread, readU8, leBytes_length]
  | updateStatusBaseLevel n =>
    have hre : readExact 6 (leBytes 2 11 ++ (leBytes 4 n ++ rest)) =
        some (leBytes 2 11 ++ leBytes 4 n, rest) := by
      have h0 := readExact_append (leBytes 2 11 ++ leBytes 4 n) rest
      simpa [leBytes_length, List.append_assoc] using h0
    have hcode : readU16 (leBytes 2 11 ++ leBytes 4 n) =
        some (11, leBytes 4 n) := readU16_leBytes 11 (leBytes 4 n) (by norm_num)
    have hpayload : readU32 (leBytes 4 n) = some (n, []) := by
      have h0 := readU32_leBytes n [] hwf
      simpa using h0
    simp [MFrame.encode, MFrame.events, decodeFrame, decodeUpdateStatusBody,
      StatusType.fromBytes, hre, hcode, decodePayload_code11, hpayload,
      leBytes_length]
  | broadcastMessage len msg =>
    obtain ⟨h2L, hL, hlen⟩ := hwf
    have hread := readU16_leBytes len (msg ++ rest) hL
    have hhint2 : (len + 65534) % 65536 = len - 2 := by omega
    have hre : readExact (len - 2) (msg ++ rest) = some (msg, rest) := by
      have h0 := readExact_append msg rest
      rwa [hlen] at h0
    have hre2 : readExact ((len + 65534) % 65536) (msg ++ rest) = some (msg, rest) := by
      rw [hhint2]; exact hre
    simp [MFrame.encode, MFrame.events, decodeFrame, decodeBroadcastMessageBody,
      hread, hre, hre2, hhint2, hlen, leBytes_length]
  | mapLoginSuccess t pos i0 i1 f =>
    obtain ⟨ht, hpos, hi0, hi1, hf⟩ := hwf
    have hread := readU32_leBytes t
      (pos.toBytes ++ ([i0, i1] ++ (leBytes 2 f ++ rest))) ht
    have hwp := worldPosition_fromBytes_extend pos.toBytes pos hpos
      ([i0, i1] ++ (leBytes 2 f ++ rest))
    have hre : readExact 2 ([i0, i1] ++ (leBytes 2 f ++ rest)) =
        some ([i0, i1], leBytes 2 f ++ rest) := by
      have h0 := readExact_append [i0, i1] (leBytes 2 f ++ rest)
      simpa using h0
    have hfont := readU16_leBytes f rest hf
    have hlen3 : pos.toBytes.length = 3 := by simp [WorldPosition.toBytes]
    simp only [List.cons_append, List.nil_append, List.append_assoc] at hread hwp hre
    simp [MFrame.encode, MFrame.events, decodeFrame, decodeMapLoginSuccessBody,
      hread, hwp, hre, hfont, hlen3, leBytes_length]

theorem dispatchBuffer_nil : dispatchBuffer [] = ([], none) := by
  simp [dispatchBuffer]

theorem dispatchBuffer_cons (b : Nat) (bs : List Nat) (evs : List MEvent)
    (consumed : Nat) (h : decodeFrame (b :: bs) = some (evs, consumed)) :
    dispatchBuffer (b :: bs) =
      (evs ++ (dispatchBuffer (bs.drop (1 + consumed))).1,
       (dispatchBuffer (bs.drop (1 + consumed))).2) := by
  simp only [dispatchBuffer, h]

theorem dispatchBuffer_break (b : Nat) (bs : List Nat)
    (h : decodeFrame (b :: bs) = none) :
    dispatchBuffer (b :: bs) = ([], some ⟨b :: bs⟩) := by
  simp only [dispatchBuffer, h]

/-- Dispatching a buffer that starts with one well-formed modelled frame
yields that frame's events followed by whatever the rest of the buffer
produces. -/
theorem dispatchBuffer_frame_prefix (f : MFrame) (hwf : f.wf) (tail : List Nat) :
    dispatchBuffer (f.encode ++ tail) =
      (f.events ++ (dispatchBuffer tail).1, (dispatchBuffer tail).2) := by
  obtain ⟨b0, b1, body, henc⟩ : ∃ b0 b1 body, f.encode = b0 :: b1 :: body := by
    cases f <;> exact ⟨_, _, _, rfl⟩
  have hdec := decodeFrame_encode f hwf tail
  rw [henc] at hdec ⊢
  simp only [List.cons_append] at hdec ⊢
  have hlen : (b0 :: b1 :: body).length - 2 = body.length := by simp
  rw [hlen] at hdec
  have hstep := dispatchBuffer_cons b0 (b1 :: (body ++ tail)) f.events
    body.length hdec
  have hdrop : (b1 :: (body ++ tail)).drop (1 + body.length) = tail := by
    rw [Nat.add_comm, List.drop_succ_cons, List.drop_left]
  rw [hstep, hdrop]

/-- Dispatching any concatenation of well-formed modelled frames
followed by a trailing buffer yields the frames' events in order
followed by whatever the trailing buffer produces. -/
theorem dispatchBuffer_frameList (fs : List MFrame) (hwf : ∀ f ∈ fs, f.wf)
    (tail : List Nat) :
    dispatchBuffer ((fs.map MFrame.encode).join ++ tail) =
      ((fs.map MFrame.events).join ++ (dispatchBuffer tail).1,
       (dispatchBuffer tail).2) := by
  induction fs with
  | nil => simp
  | cons f fs ih =>
    have h1 := dispatchBuffer_frame_prefix f (hwf f (by simp))
      ((fs.map MFrame.encode).join ++ tail)
    have h2 := ih (fun g hg => hwf g (by simp [hg]))
    simp only [List.map_cons, List.join_cons, List.append_assoc]
    rw [h1, h2]

/-- C3: a buffer of exactly three concatenated well-formed frames of
modelled packet types dispatches to exactly the three frames' events,
in arrival order, with the buffer consumed to its end (no unknown-bytes
capture, i.e. the loop exited with the cursor at end-of-buffer). -/
theorem dispatcher_three_frames (f1 f2 f3 : MFrame)
    (h1 : f1.wf) (h2 : f2.wf) (h3 : f3.wf) :
    dispatchBuffer (f1.encode ++ f2.encode ++ f3.encode) =
      (f1.events ++ f2.events ++ f3.events, none) := by
  have h := dispatchBuffer_frameList [f1, f2, f3]
    (by intro g hg; simp at hg; rcases hg with h | h | h <;> subst h <;> assumption) []
  simp only [List.map_cons, List.map_nil, List.join_cons, List.join_nil,
    List.append_nil, List.append_assoc, dispatchBuffer_nil] at h
  simpa [List.append_assoc] using h

/-- C3 witness: the theorem applied to a server-tick frame, an
entity-disappeared frame and a broadcast-message frame. -/
theorem dispatcher_three_frames_witness :
    dispatchBuffer ((MFrame.serverTick 42).encode ++
        (MFrame.entityDisappeared 9 1).encode ++
        (MFrame.broadcastMessage 5 [65, 66, 67]).encode) =
      ((MFrame.serverTick 42).events ++ (MFrame.entityDisappeared 9 1).events ++
        (MFrame.broadcastMessage 5 [65, 66, 67]).events, none) :=
  dispatcher_three_frames (.serverTick 42) (.entityDisappeared 9 1)
    (.broadcastMessage 5 [65, 66, 67])
    (by norm_num [MFrame.wf]) (by norm_num [MFrame.wf]) (by norm_num [MFrame.wf])

/-- C7: when the dispatcher reaches a position whose next two bytes form
a header matching no known packet type, it captures the entire remainder
of the buffer as an UnknownPacket diagnostic record and stops consuming
the buffer; the events of all frames decoded earlier in the same buffer
are still returned. -/
theorem unknown_header_capture (fs : List MFrame) (hwf : ∀ f ∈ fs, f.wf)
    (j0 j1 : Nat) (jrest : List Nat)
    (hunknown : (j0 + 256 * j1) ∉ knownHeaders) :
    dispatchBuffer ((fs.map MFrame.encode).join ++ (j0 :: j1 :: jrest)) =
      ((fs.map MFrame.events).join, some ⟨j0 :: j1 :: jrest⟩) := by
  simp only [knownHeaders, List.mem_cons, List.not_mem_nil, or_false,
    not_or] at hunknown
  obtain ⟨n1, n2, n3, n4, n5, n6⟩ := hunknown
  have hnone : decodeFrame (j0 :: j1 :: jrest) = none := by
    simp [decodeFrame, n1, n2, n3, n4, n5, n6]
  have hjunk := dispatchBuffer_break j0 (j1 :: jrest) hnone
  have h := dispatchBuffer_frameList fs hwf (j0 :: j1 :: jrest)
  rw [hjunk] at h
  simpa using h

/-- C7 witness: the theorem applied to one server-tick frame followed by
bytes starting with the unassigned header 0x0000. -/
theorem unknown_header_capture_witness :
    dispatchBuffer (([MFrame.serverTick 1].map MFrame.encode).join ++
        (0 :: 0 :: [1, 2, 3])) =
      (([MFrame.serverTick 1].map MFrame.events).join,
       some ⟨0 :: 0 :: [1, 2, 3]⟩) :=
  unknown_header_capture [.serverTick 1]
    (by intro f hf; simp only [List.mem_singleton] at hf; subst hf;
        norm_num [MFrame.wf])
    0 0 [1, 2, 3] (by decide)

theorem networkEvents_take (reads : List (List Nat)) (data : List Nat)
    (rest : List (List Nat)) (h : takeRead reads = some (data, rest)) :
    networkEvents reads = (dispatchBuffer data).1 ++ networkEvents rest := by
  conv_lhs => rw [networkEvents.eq_def]
  rw [h]

theorem networkEvents_stop (reads : List (List Nat))
    (h : takeRead reads = none) : networkEvents reads = [] := by
  conv_lhs => rw [networkEvents.eq_def]
  rw [h]

/-- C2: the claim says that after a buffer holding one complete frame
followed by a truncated second frame, the dispatcher yields the first
frame's event and the trailing bytes are retried after the next read.
The code violates the retry part: the events of the complete frame are
yielded and the truncation is not a fatal error, but the inner loop
breaks and the trailing bytes are only captured as an UnknownPacket
diagnostic and discarded; the next read is decoded from scratch, so the
second frame's event is never produced (first conjunct), even though the
very same frame split across no read boundary produces it (third
conjunct).  Only a read of exactly 1400 bytes is recombined with its
successor.  The concrete input: a 6-byte server-tick frame for tick 5
followed by the first 3 bytes of a server-tick frame for tick 7, with
the remaining 3 bytes arriving in the next read. -/
theorem partial_delivery_discarded :
    networkEvents [(MFrame.serverTick 5).encode ++ [0x7f, 0x00, 7],
        [0, 0, 0]] = [MEvent.updateClientTick 5] ∧
    dispatchBuffer ((MFrame.serverTick 5).encode ++ [0x7f, 0x00, 7]) =
      ([MEvent.updateClientTick 5], some ⟨[0x7f, 0x00, 7]⟩) ∧
    networkEvents [(MFrame.serverTick 5).encode ++
        (MFrame.serverTick 7).encode] =
      [MEvent.updateClientTick 5, MEvent.updateClientTick 7] := by
  have hts : (MFrame.serverTick 5).encode ++ [0x7f, 0x00, 7] =
      [127, 0, 5, 0, 0, 0, 127, 0, 7] := rfl
  have hd1 : decodeFrame [127, 0, 5, 0, 0, 0, 127, 0, 7] =
      some ([.updateClientTick 5], 4) := rfl
  have hdstop : decodeFrame [127, 0, 7] = none := rfl
  have hbreak : dispatchBuffer [127, 0, 7] = ([], some ⟨[127, 0, 7]⟩) :=
    dispatchBuffer_break 127 [0, 7] hdstop
  have hstep := dispatchBuffer_cons 127 [0, 5, 0, 0, 0, 127, 0, 7]
    [.updateClientTick 5] 4 hd1
  have hdrop : ([0, 5, 0, 0, 0, 127, 0, 7] : List Nat).drop (1 + 4) =
      [127, 0, 7] := rfl
  have hb1 : dispatchBuffer [127, 0, 5, 0, 0, 0, 127, 0, 7] =
      ([MEvent.updateClientTick 5], some ⟨[127, 0, 7]⟩) := by
    rw [hstep, hdrop, hbreak]
    simp
  have hd0 : decodeFrame [0, 0, 0] = none := rfl
  have hb0 : dispatchBuffer [0, 0, 0] = ([], some ⟨[0, 0, 0]⟩) :=
    dispatchBuffer_break 0 [0, 0] hd0
  refine ⟨?_, ?_, ?_⟩
  · have ht1 : takeRead [[127, 0, 5, 0, 0, 0, 127, 0, 7], [0, 0, 0]] =
        some ([127, 0, 5, 0, 0, 0, 127, 0, 7], [[0, 0, 0]]) := rfl
    have ht2 : takeRead [[0, 0, 0]] = some ([0, 0, 0], []) := rfl
    have ht3 : takeRead ([] : List (List Nat)) = none := rfl
    rw [hts, networkEvents_take _ _ _ ht1, networkEvents_take _ _ _ ht2,
      networkEvents_stop _ ht3, hb1, hb0]
    simp
  · rw [hts, hb1]
  · have henc2 : (MFrame.serverTick 5).encode ++ (MFrame.serverTick 7).encode =
        [127, 0, 5, 0, 0, 0, 127, 0, 7, 0, 0, 0] := rfl
    have ht1 : takeRead [[127, 0, 5, 0, 0, 0, 127, 0, 7, 0, 0, 0]] =
        some ([127, 0, 5, 0, 0, 0, 127, 0, 7, 0, 0, 0], []) := rfl
    have ht3 : takeRead ([] : List (List Nat)) = none := rfl
    have hfull := dispatchBuffer_frameList [.serverTick 5, .serverTick 7]
      (by intro g hg; simp at hg;
          rcases hg with h | h <;> subst h <;> norm_num [MFrame.wf]) []
    simp only [List.map_cons, List.map_nil, List.join_cons, List.join_nil,
      List.append_nil, dispatchBuffer_nil] at hfull
    have hfull2 : dispatchBuffer [127, 0, 5, 0, 0, 0, 127, 0, 7, 0, 0, 0] =
        ([MEvent.updateClientTick 5, MEvent.updateClientTick 7], none) := by
      have he : (MFrame.serverTick 5).encode ++ (MFrame.serverTick 7).encode ++
          ([] : List Nat) = [127, 0, 5, 0, 0, 0, 127, 0, 7, 0, 0, 0] := rfl
      rw [← he]
      simpa [MFrame.events] using hfull
    rw [henc2, networkEvents_take _ _ _ ht1, networkEvents_stop _ ht3, hfull2]
    simp

/-- Modelled from the spec: the protocol version tag carried by the map
byte cursor (byte_stream.get_version()), with the equals_or_above
comparison used by the versioned decoders: lexicographic comparison of
the major and minor components. -/
structure ProtocolVersion where
  major : Nat
  minor : Nat
deriving DecidableEq, Repr

/-- Modelled from the spec: version.equals_or_above(major, minor). -/
def ProtocolVersion.equalsOrAbove (v : ProtocolVersion) (ma mi : Nat) : Bool :=
  decide (ma < v.major ∨ (v.major = ma ∧ mi ≤ v.minor))

theorem readU32_exact (xs rest : List Nat) (h : xs.length = 4) :
    readU32 (xs ++ rest) = some (leNat xs, rest) := by
  have h0 := readExact_append xs rest
  rw [h] at h0
  simp [readU32, h0]

/-- Modelled from the spec: read_vector3 reads three 4-byte float
components.  No float arithmetic is modelled: each component is kept as
its raw little-endian 4-byte wire pattern.  The flipped variant of the
cursor consumes the same 12 bytes; the sign flip it applies is a float
operation outside the model, so both are modelled by this reader. -/
def readVector3 (l : List Nat) : Option ((Nat × Nat × Nat) × List Nat) :=
  (readU32 l).bind (fun p =>
    (readU32 p.2).bind (fun q =>
      (readU32 q.2).map (fun r => ((p.1, q.1, r.1), r.2))))

/-- ObjectData from src/src/loaders/map/resource.rs.  The source stores
a Transform built from the three vectors (with a small per-index float
offset added to the position in the 1.6+ branch to avoid depth
fighting); floats are outside the model, so the embedding keeps the
three vectors as raw wire patterns, before any float conversion or
offset. -/
structure ObjectData where
  name : Option (List Nat)
  model_name : List Nat
  position : Nat × Nat × Nat
  rotation : Nat × Nat × Nat
  scale : Nat × Nat × Nat
deriving DecidableEq, Repr

/-- The ResourceType::Object arm of MapResources::from_bytes
(src/src/loaders/map/resource.rs): when the cursor's version is 1.6 or
above it reads a 40-byte name, the animation type (integer32), the
animation speed (float32) and the block type (integer32) before the
model name and builds ObjectData with Some name; below 1.6 those reads
are omitted entirely and the name is None.  Both branches then read the
80-byte model name, an 80-byte node name (discarded), and the three
vectors.  Returns the object and the unread remainder. -/
def decodeObjectResource (version : ProtocolVersion) (l : List Nat) :
    Option (ObjectData × List Nat) :=
  if version.equalsOrAbove 1 6 then
    (readExact 40 l).bind (fun nameP =>
    (readU32 nameP.2).bind (fun _animationType =>
    (readU32 _animationType.2).bind (fun _animationSpeed =>
    (readU32 _animationSpeed.2).bind (fun _blockType =>
    (readExact 80 _blockType.2).bind (fun modelP =>
    (readExact 80 modelP.2).bind (fun _nodeP =>
    (readVector3 _nodeP.2).bind (fun posP =>
    (readVector3 posP.2).bind (fun rotP =>
    (readVector3 rotP.2).map (fun scaleP =>
      (⟨some (trimNul nameP.1), trimNul modelP.1,
        posP.1, rotP.1, scaleP.1⟩, scaleP.2))))))))))
  else
    (readExact 80 l).bind (fun modelP =>
    (readExact 80 modelP.2).bind (fun _nodeP =>
    (readVector3 _nodeP.2).bind (fun posP =>
    (readVector3 posP.2).bind (fun rotP =>
    (readVector3 rotP.2).map (fun scaleP =>
      (⟨none, trimNul modelP.1, posP.1, rotP.1, scaleP.1⟩, scaleP.2))))))

/-- The version-independent tail of an object resource record: model
name, node name (discarded), and the three vectors, exactly the reads
both branches of the source perform after the version gate. -/
def decodeObjectTail (l : List Nat) :
    Option ((List Nat × (Nat × Nat × Nat) × (Nat × Nat × Nat) ×
      (Nat × Nat × Nat)) × List Nat) :=
  (readExact 80 l).bind (fun modelP =>
  (readExact 80 modelP.2).bind (fun _nodeP =>
  (readVector3 _nodeP.2).bind (fun posP =>
  (readVector3 posP.2).bind (fun rotP =>
  (readVector3 rotP.2).map (fun scaleP =>
    ((trimNul modelP.1, posP.1, rotP.1, scaleP.1), scaleP.2))))))

/-- C9: decoding a map Object resource record is version-gated exactly
as claimed: for a cursor version of 1.6 or above the decoder first
consumes a 40-byte name and the three 4-byte animation-type,
animation-speed and block-type fields and produces ObjectData with Some
(trimmed) name, while below 1.6 those reads are omitted entirely and
the name is None; in both cases the remaining fields are read
identically, namely as the common tail decodeObjectTail (model name,
node name, position, rotation, scale) applied at the respective cursor
position. -/
theorem objectResource_versioned_decode (version : ProtocolVersion)
    (nameB a1 a2 a3 rest : List Nat) (hn : nameB.length = 40)
    (h1 : a1.length = 4) (h2 : a2.length = 4) (h3 : a3.length = 4) :
    (version.equalsOrAbove 1 6 = true →
      decodeObjectResource version (nameB ++ a1 ++ a2 ++ a3 ++ rest) =
        (decodeObjectTail rest).map (fun p =>
          (⟨some (trimNul nameB), p.1.1, p.1.2.1, p.1.2.2.1, p.1.2.2.2⟩,
           p.2))) ∧
    (version.equalsOrAbove 1 6 = false →
      decodeObjectResource version rest =
        (decodeObjectTail rest).map (fun p =>
          (⟨none, p.1.1, p.1.2.1, p.1.2.2.1, p.1.2.2.2⟩, p.2))) := by
  constructor
  · intro hv
    have hname : readExact 40 (nameB ++ (a1 ++ (a2 ++ (a3 ++ rest)))) =
        some (nameB, a1 ++ (a2 ++ (a3 ++ rest))) := by
      have h0 := readExact_append nameB (a1 ++ (a2 ++ (a3 ++ rest)))
      rwa [hn] at h0
    have ha1 := readU32_exact a1 (a2 ++ (a3 ++ rest)) h1
    have ha2 := readU32_exact a2 (a3 ++ rest) h2
    have ha3 := readU32_exact a3 rest h3
    simp [decodeObjectResource, decodeObjectTail, hv, List.append_assoc,
      hname, ha1, ha2, ha3, Option.map_bind, Option.map_map, Function.comp_def]
  · intro hv
    simp [decodeObjectResource, decodeObjectTail, hv, Option.map_bind,
      Option.map_map, Function.comp_def]

/-- C9 witness: the theorem applied at version 1.6 (first conjunct) and,
through a second application, at version 1.5 (second conjunct), on a
concrete 196-byte tail preceded by a concrete 40-byte name and 4-byte
animation fields. -/
theorem objectResource_versioned_decode_witness :
    (decodeObjectResource ⟨1, 6⟩ (List.replicate 40 65 ++ List.replicate 4 1 ++
        List.replicate 4 2 ++ List.replicate 4 3 ++ List.replicate 196 66) =
      (decodeObjectTail (List.replicate 196 66)).map (fun p =>
        (⟨some (trimNul (List.replicate 40 65)), p.1.1, p.1.2.1, p.1.2.2.1,
          p.1.2.2.2⟩, p.2))) ∧
    (decodeObjectResource ⟨1, 5⟩ (List.replicate 196 66) =
      (decodeObjectTail (List.replicate 196 66)).map (fun p =>
        (⟨none, p.1.1, p.1.2.1, p.1.2.2.1, p.1.2.2.2⟩, p.2))) := by
  constructor
  · exact (objectResource_versioned_decode ⟨1, 6⟩ (List.replicate 40 65)
      (List.replicate 4 1) (List.replicate 4 2) (List.replicate 4 3)
      (List.replicate 196 66) (by simp) (by simp) (by simp) (by simp)).1
      (by decide)
  · exact (objectResource_versioned_decode ⟨1, 5⟩ (List.replicate 40 65)
      (List.replicate 4 1) (List.replicate 4 2) (List.replicate 4 3)
      (List.replicate 196 66) (by simp) (by simp) (by simp) (by simp)).2
      (by decide)

/-- Sex from src/src/network/mod.rs. -/
inductive Sex where
  | Female
  | Male
  | Both
  | Server
deriving DecidableEq, Repr

/-- LoginData from src/src/network/mod.rs: the session credentials
stored after a successful login. -/
structure LoginData where
  account_id : Nat
  login_id1 : Nat
  sex : Sex
deriving DecidableEq, Repr

/-- CharacterInformation from src/src/network/mod.rs.  Signed integer
fields are modelled as Int, unsigned as Nat, fixed-width strings as the
trimmed byte lists the cursor produces. -/
structure CharacterInformation where
  character_id : Nat
  experience : Int
  money : Int
  job_experience : Int
  jop_level : Int
  body_state : Int
  health_state : Int
  effect_state : Int
  virtue : Int
  honor : Int
  jobpoint : Int
  health_points : Int
  maximum_health_points : Int
  spell_points : Int
  maximum_spell_points : Int
  movement_speed : Int
  job : Int
  head : Int
  body : Int
  weapon : Int
  level : Int
  sp_point : Int
  accessory : Int
  shield : Int
  accessory2 : Int
  accessory3 : Int
  head_palette : Int
  body_palette : Int
  name : List Nat
  strength : Nat
  agility : Nat
  vit : Nat
  intelligence : Nat
  dexterity : Nat
  luck : Nat
  character_number : Nat
  hair_color : Nat
  b_is_changed_char : Int
  map_name : List Nat
  deletion_reverse_date : Int
  robe_palette : Int
  character_slot_change_count : Int
  character_name_change_count : Int
  sex : Sex

/-- CharacterSelectionFailedReason from src/src/network/mod.rs (wire
code 0). -/
inductive CharacterSelectionFailedReason where
  | RejectedFromServer
deriving DecidableEq, Repr

/-- LoginFailedReason from src/src/network/mod.rs, with the explicit
wire codes 1, 2 and 8. -/
inductive LoginFailedReason where
  | ServerClosed
  | AlreadyLoggedIn
  | AlreadyOnline
deriving DecidableEq, Repr

/-- CharacterSelectionFailedPacket::try_from_bytes (header 0x006c, one
reason byte with the single code 0); the header check and the
enum-code check are modelled from the spec (the derives are not part of
the provided sources). -/
def tryCharacterSelectionFailed (l : List Nat) :
    Option CharacterSelectionFailedReason :=
  (readU16 l).bind (fun h =>
    if h.1 = 0x006c then
      (readU8 h.2).bind (fun r =>
        if r.1 = 0 then some .RejectedFromServer else none)
    else none)

/-- LoginFailedPacket::try_from_bytes (header 0x0081, one reason byte
with the codes 1, 2 and 8). -/
def tryLoginFailed (l : List Nat) : Option LoginFailedReason :=
  (readU16 l).bind (fun h =>
    if h.1 = 0x0081 then
      (readU8 h.2).bind (fun r =>
        if r.1 = 1 then some .ServerClosed
        else if r.1 = 2 then some .AlreadyLoggedIn
        else if r.1 = 8 then some .AlreadyOnline
        else none)
    else none)

/-- MapServerUnavailablePacket::try_from_bytes (header 0x0840, a u16
packet_length and a string with length hint packet_length - 4, the u16
subtraction modelled with the release-build wrap). -/
def tryMapServerUnavailable (l : List Nat) : Option (List Nat) :=
  (readU16 l).bind (fun h =>
    if h.1 = 0x0840 then
      (readU16 h.2).bind (fun p =>
        (readExact ((p.1 + 65532) % 65536) p.2).map (fun s => trimNul s.1))
    else none)

/-- CharacterSelectionSuccessPacket from src/src/network/mod.rs
(header 0x0ac5): character id, 16-byte map name, the map server
address (four single bytes, as Ipv4Addr::from_bytes reads them) and
port, and 128 unknown bytes. -/
structure CharacterSelectionSuccess where
  character_id : Nat
  map_name : List Nat
  map_server_ip : Nat × Nat × Nat × Nat
  map_server_port : Nat
  unknown : List Nat
deriving DecidableEq, Repr

/-- CharacterSelectionSuccessPacket::try_from_bytes. -/
def tryCharacterSelectionSuccess (l : List Nat) :
    Option CharacterSelectionSuccess :=
  (readU16 l).bind (fun h =>
    if h.1 = 0x0ac5 then
      (readU32 h.2).bind (fun pc =>
      (readExact 16 pc.2).bind (fun pm =>
      (readU8 pm.2).bind (fun i0 =>
      (readU8 i0.2).bind (fun i1 =>
      (readU8 i1.2).bind (fun i2 =>
      (readU8 i2.2).bind (fun i3 =>
      (readU16 i3.2).bind (fun pp =>
      (readExact 128 pp.2).map (fun pu =>
        ⟨pc.1, trimNul pm.1, (i0.1, i1.1, i2.1, i3.1), pp.1, pu.1⟩))))))))
    else none)

/-- str::replace of every occurrence of ".gat" by the empty string, on
byte lists (46, 103, 97, 116 are the bytes of ".gat"). -/
def removeGat : List Nat → List Nat
  | 46 :: 103 :: 97 :: 116 :: rest => removeGat rest
  | b :: rest => b :: removeGat rest
  | [] => []

/-- The MapServerLoginPacket fields sent by select_character
(src/src/network/mod.rs): the stored session credentials, the selected
character's id from the success response, the placeholder client tick
100, and the stored sex. -/
structure MapServerLoginRequest where
  account_id : Nat
  character_id : Nat
  login_id1 : Nat
  client_tick : Nat
  sex : Sex
deriving DecidableEq, Repr

/-- The observable outcome of one NetworkingSystem::select_character
call: the slot byte sent in the selection request, the returned result
(an error string or the account id, chosen character and trimmed map
name), whether a map connection was opened and set to non-blocking
mode, the map-login request sent over it, and the player name stored
on success. -/
structure SelectCharacterOutcome where
  sentSelectSlot : Nat
  result : Except String (Nat × CharacterInformation × List Nat)
  mapConnectionNonblocking : Bool
  sentMapLogin : Option MapServerLoginRequest
  playerName : Option (List Nat)

/-- NetworkingSystem::select_character from src/src/network/mod.rs over
one character-server response buffer.  The TCP sockets are abstracted:
the response bytes stand for the blocking read of the character
connection and connectOk for whether TcpStream::connect_timeout to the
advertised map server succeeds.  The failure packets are tried in the
source's order, each returning its user-facing error string; then the
success packet is parsed with unwrap (a panic on any other response,
modelled as Option.none), the map connection is opened non-blocking,
the map-login request is sent carrying the stored login data (whose
absence panics, modelled as none), the character for the slot is looked
up (absence panics too), and the character information is returned with
the map name stripped of the .gat extension. -/
def selectCharacter (login_data : Option LoginData)
    (characters : List CharacterInformation) (slot : Nat)
    (response : List Nat) (connectOk : Bool) :
    Option SelectCharacterOutcome :=
  match tryCharacterSelectionFailed response with
  | some .RejectedFromServer =>
    some ⟨slot % 256, .error "rejected from server", false, none, none⟩
  | none =>
  match tryLoginFailed response with
  | some .ServerClosed =>
    some ⟨slot % 256, .error "Server closed", false, none, none⟩
  | some .AlreadyLoggedIn =>
    some ⟨slot % 256, .error "Someone has already logged in with this ID",
      false, none, none⟩
  | some .AlreadyOnline =>
    some ⟨slot % 256, .error "Already online", false, none, none⟩
  | none =>
  match tryMapServerUnavailable response with
  | some _ =>
    some ⟨slot % 256, .error "Map server currently unavailable", false,
      none, none⟩
  | none =>
  match tryCharacterSelectionSuccess response with
  | none => none
  | some success =>
    if connectOk then
      match login_data with
      | none => none
      | some ld =>
        let request : MapServerLoginRequest :=
          ⟨ld.account_id, success.character_id, ld.login_id1, 100, ld.sex⟩
        match characters.find? (fun c => c.character_number == slot) with
        | none => none
        | some character =>
          some ⟨slot % 256,
            .ok (ld.account_id, character, removeGat success.map_name),
            true, some request, some character.name⟩
    else
      some ⟨slot % 256,
        .error "Failed to connect to map server. Please try again",
        false, none, none⟩

/-- C8: select_character sends the slot-selection request (the slot as
one byte) and handles the character server's response as exactly one of
selection-failed, login-failed (three reasons), map-server-unavailable
(each an Err with its user-facing string) or success; on success with a
reachable map server it opens the map connection in non-blocking mode,
sends the map-login request carrying the stored session credentials and
the placeholder client tick 100, and returns the account id, the chosen
character's information and the map name with the .gat extension
removed (a failing connect is an Err instead). -/
theorem selectCharacter_response_handling (ld : LoginData)
    (chars : List CharacterInformation) (slot : Nat)
    (cid : Nat) (hcid : cid < 2 ^ 32)
    (mapNameB : List Nat) (hmap : mapNameB.length = 16)
    (ip0 ip1 ip2 ip3 : Nat) (port : Nat) (hport : port < 2 ^ 16)
    (unknownB : List Nat) (hunk : unknownB.length = 128)
    (unavailMsg : List Nat) (hunavail : unavailMsg.length + 4 < 65536)
    (ch : CharacterInformation)
    (hfind : chars.find? (fun c => c.character_number == slot) = some ch) :
    selectCharacter (some ld) chars slot (leBytes 2 108 ++ [0]) true =
      some ⟨slot % 256, .error "rejected from server", false, none, none⟩ ∧
    selectCharacter (some ld) chars slot (leBytes 2 129 ++ [1]) true =
      some ⟨slot % 256, .error "Server closed", false, none, none⟩ ∧
    selectCharacter (some ld) chars slot (leBytes 2 129 ++ [2]) true =
      some ⟨slot % 256, .error "Someone has already logged in with this ID",
        false, none, none⟩ ∧
    selectCharacter (some ld) chars slot (leBytes 2 129 ++ [8]) true =
      some ⟨slot % 256, .error "Already online", false, none, none⟩ ∧
    selectCharacter (some ld) chars slot
      (leBytes 2 2112 ++ (leBytes 2 (unavailMsg.length + 4) ++ unavailMsg))
      true =
      some ⟨slot % 256, .error "Map server currently unavailable", false,
        none, none⟩ ∧
    selectCharacter (some ld) chars slot
      (leBytes 2 2757 ++ (leBytes 4 cid ++ (mapNameB ++
        (ip0 :: ip1 :: ip2 :: ip3 :: (leBytes 2 port ++ unknownB))))) false =
      some ⟨slot % 256,
        .error "Failed to connect to map server. Please try again",
        false, none, none⟩ ∧
    selectCharacter (some ld) chars slot
      (leBytes 2 2757 ++ (leBytes 4 cid ++ (mapNameB ++
        (ip0 :: ip1 :: ip2 :: ip3 :: (leBytes 2 port ++ unknownB))))) true =
      some ⟨slot % 256,
        .ok (ld.account_id, ch, removeGat (trimNul mapNameB)),
        true, some ⟨ld.account_id, cid, ld.login_id1, 100, ld.sex⟩,
        some ch.name⟩ := by
  have hsuccrest : readU16 (leBytes 2 2757 ++ (leBytes 4 cid ++ (mapNameB ++
      (ip0 :: ip1 :: ip2 :: ip3 :: (leBytes 2 port ++ unknownB))))) =
      some (2757, leBytes 4 cid ++ (mapNameB ++
      (ip0 :: ip1 :: ip2 :: ip3 :: (leBytes 2 port ++ unknownB)))) :=
    readU16_leBytes 2757 _ (by norm_num)
  have hcidread := readU32_leBytes cid (mapNameB ++
    (ip0 :: ip1 :: ip2 :: ip3 :: (leBytes 2 port ++ unknownB))) hcid
  have hmapread : readExact 16 (mapNameB ++
      (ip0 :: ip1 :: ip2 :: ip3 :: (leBytes 2 port ++ unknownB))) =
      some (mapNameB, ip0 :: ip1 :: ip2 :: ip3 ::
        (leBytes 2 port ++ unknownB)) := by
    have h0 := readExact_append mapNameB
      (ip0 :: ip1 :: ip2 :: ip3 :: (leBytes 2 port ++ unknownB))
    rwa [hmap] at h0
  have hportread := readU16_leBytes port unknownB hport
  have hunkread : readExact 128 unknownB = some (unknownB, []) := by
    have h0 := readExact_append unknownB []
    rw [hunk, List.append_nil] at h0
    exact h0
  have hsucc : tryCharacterSelectionSuccess (leBytes 2 2757 ++
      (leBytes 4 cid ++ (mapNameB ++
      (ip0 :: ip1 :: ip2 :: ip3 :: (leBytes 2 port ++ unknownB))))) =
      some ⟨cid, trimNul mapNameB, (ip0, ip1, ip2, ip3), port, unknownB⟩ := by
    simp [tryCharacterSelectionSuccess, hsuccrest, hcidread, hmapread,
      readU8, hportread, hunkread]
  have hsfail : tryCharacterSelectionFailed (leBytes 2 2757 ++
      (leBytes 4 cid ++ (mapNameB ++
      (ip0 :: ip1 :: ip2 :: ip3 :: (leBytes 2 port ++ unknownB))))) = none := by
    simp [tryCharacterSelectionFailed, hsuccrest]
  have hsfail2 : tryLoginFailed (leBytes 2 2757 ++
      (leBytes 4 cid ++ (mapNameB ++
      (ip0 :: ip1 :: ip2 :: ip3 :: (leBytes 2 port ++ unknownB))))) = none := by
    simp [tryLoginFailed, hsuccrest]
  have hsfail3 : tryMapServerUnavailable (leBytes 2 2757 ++
      (leBytes 4 cid ++ (mapNameB ++
      (ip0 :: ip1 :: ip2 :: ip3 :: (leBytes 2 port ++ unknownB))))) = none := by
    simp [tryMapServerUnavailable, hsuccrest]
  refine ⟨?_, ?_, ?_, ?_, ?_, ?_, ?_⟩
  · have ha := readU16_leBytes 108 [0] (by norm_num)
    simp [selectCharacter, tryCharacterSelectionFailed, ha, readU8]
  · have ha := readU16_leBytes 129 [1] (by norm_num)
    simp [selectCharacter, tryCharacterSelectionFailed, tryLoginFailed,
      ha, readU8]
  · have ha := readU16_leBytes 129 [2] (by norm_num)
    simp [selectCharacter, tryCharacterSelectionFailed, tryLoginFailed,
      ha, readU8]
  · have ha := readU16_leBytes 129 [8] (by norm_num)
    simp [selectCharacter, tryCharacterSelectionFailed, tryLoginFailed,
      ha, readU8]
  · have ha := readU16_leBytes 2112
      (leBytes 2 (unavailMsg.length + 4) ++ unavailMsg) (by norm_num)
    have hb := readU16_leBytes (unavailMsg.length + 4) unavailMsg (by omega)
    have hwrap : (unavailMsg.length + 4 + 65532) % 65536 = unavailMsg.length :=
      by omega
    have hc : readExact unavailMsg.length unavailMsg =
        some (unavailMsg, []) := by
      have h0 := readExact_append unavailMsg []
      rwa [List.append_nil] at h0
    simp [selectCharacter, tryCharacterSelectionFailed, tryLoginFailed,
      tryMapServerUnavailable, ha, hb, hwrap, hc]
  · simp [selectCharacter, hsfail, hsfail2, hsfail3, hsucc]
  · simp [selectCharacter, hsfail, hsfail2, hsfail3, hsucc, hfind]

/-- A concrete character record for the C8 witness, sitting in slot 3. -/
def testCharacter : CharacterInformation :=
  ⟨7, 0, 0, 0, 0, 0, 0, 0, 0, 0, 0, 0, 0, 0, 0, 0, 0, 0, 0, 0, 0, 0, 0, 0,
   0, 0, 0, 0, [75, 105], 1, 1, 1, 1, 1, 1, 3, 0, 0, [], 0, 0, 0, 0,
   Sex.Male⟩

/-- C8 witness: the theorem applied at concrete inputs; the map name
prontera.gat (NUL-padded to 16 bytes) comes back as prontera. -/
theorem selectCharacter_response_handling_witness :
    selectCharacter (some ⟨9, 77, Sex.Male⟩) [testCharacter] 3
      (leBytes 2 108 ++ [0]) true =
      some ⟨3, .error "rejected from server", false, none, none⟩ ∧
    selectCharacter (some ⟨9, 77, Sex.Male⟩) [testCharacter] 3
      (leBytes 2 129 ++ [1]) true =
      some ⟨3, .error "Server closed", false, none, none⟩ ∧
    selectCharacter (some ⟨9, 77, Sex.Male⟩) [testCharacter] 3
      (leBytes 2 129 ++ [2]) true =
      some ⟨3, .error "Someone has already logged in with this ID",
        false, none, none⟩ ∧
    selectCharacter (some ⟨9, 77, Sex.Male⟩) [testCharacter] 3
      (leBytes 2 129 ++ [8]) true =
      some ⟨3, .error "Already online", false, none, none⟩ ∧
    selectCharacter (some ⟨9, 77, Sex.Male⟩) [testCharacter] 3
      (leBytes 2 2112 ++ (leBytes 2 ([65, 66].length + 4) ++ [65, 66]))
      true =
      some ⟨3, .error "Map server currently unavailable", false,
        none, none⟩ ∧
    selectCharacter (some ⟨9, 77, Sex.Male⟩) [testCharacter] 3
      (leBytes 2 2757 ++ (leBytes 4 1234 ++
        ([112, 114, 111, 110, 116, 101, 114, 97, 46, 103, 97, 116,
          0, 0, 0, 0] ++
        (6 :: 7 :: 8 :: 9 :: (leBytes 2 5121 ++ List.replicate 128 0)))))
      false =
      some ⟨3, .error "Failed to connect to map server. Please try again",
        false, none, none⟩ ∧
    selectCharacter (some ⟨9, 77, Sex.Male⟩) [testCharacter] 3
      (leBytes 2 2757 ++ (leBytes 4 1234 ++
        ([112, 114, 111, 110, 116, 101, 114, 97, 46, 103, 97, 116,
          0, 0, 0, 0] ++
        (6 :: 7 :: 8 :: 9 :: (leBytes 2 5121 ++ List.replicate 128 0)))))
      true =
      some ⟨3,
        .ok (9, testCharacter,
          removeGat (trimNul [112, 114, 111, 110, 116, 101, 114, 97, 46,
            103, 97, 116, 0, 0, 0, 0])),
        true, some ⟨9, 1234, 77, 100, Sex.Male⟩,
        some testCharacter.name⟩ := by
  have h := selectCharacter_response_handling ⟨9, 77, Sex.Male⟩
    [testCharacter] 3 1234 (by norm_num)
    [112, 114, 111, 110, 116, 101, 114, 97, 46, 103, 97, 116, 0, 0, 0, 0]
    (by rfl) 6 7 8 9 5121 (by norm_num) (List.replicate 128 0) (by simp)
    [65, 66] (by norm_num) testCharacter (by rfl)
  exact h
